import Mathlib

/-!
Shallow embedding of `rigel-a-rx/rigel-a-sw/src/main.cpp` (RadioLib STM32WLx
blocking-receive firmware example).

The firmware consists of a `setup` function (install RF switch table,
initialize the LoRa modem, apply secondary tuning) and a `loop` function
(one blocking receive per iteration with a four-way status branch).
The external radio-abstraction library (RadioLib) is not part of this
repository: the status codes its entry points return, and the payload /
quality metrics a receive yields, are modelled as oracle inputs
(`Env` for the setup-time calls, `RxEvent` for each receive).

Serial output is modelled as a trace of print events (`Ev.pr` for
`Serial2.print`, `Ev.ln` for `Serial2.println`); the trace of calls into
the radio library is modelled by `RadioCall` so that ordering and
frame properties can be stated.
-/

namespace Rigel

/-- RadioLib status code for success (`RADIOLIB_ERR_NONE`). -/
def RADIOLIB_ERR_NONE : Int := 0

/-- RadioLib status code for a receive timeout (`RADIOLIB_ERR_RX_TIMEOUT`). -/
def RADIOLIB_ERR_RX_TIMEOUT : Int := -6

/-- RadioLib status code for a CRC mismatch (`RADIOLIB_ERR_CRC_MISMATCH`). -/
def RADIOLIB_ERR_CRC_MISMATCH : Int := -7

/-- One Serial2 output event: `pr s` is `Serial2.print(s)` (no newline),
`ln s` is `Serial2.println(s)`. Integers printed by the source
(`Serial2.println(state)`) are rendered with `toString`. -/
inductive Ev where
  | pr (s : String)
  | ln (s : String)
  deriving DecidableEq, Repr

/-- One call into the external radio-abstraction library, with the arguments
the source passes. `beginRadio` carries the nine base parameters of
`radio.begin` in source order. -/
inductive RadioCall where
  | setRfSwitchTable
  | beginRadio (freq bw : ℚ) (sf cr syncWord : ℕ) (power : ℤ)
      (preambleLength : ℕ) (tcxoVoltage : ℚ) (useRegulatorLDO : Bool)
  | setTCXO (v : ℚ)
  | forceLDRO (b : Bool)
  | setRxBoostedGainMode (b : Bool)
  | implicitHeader (len : ℕ)
  | receive
  | getRSSI
  | getSNR
  deriving DecidableEq, Repr

/-- Oracle for the statuses the external library returns during `setup`:
one field per setup-time library call that returns a status. -/
structure Env where
  beginStatus : Int
  setTCXOStatus : Int
  forceLDROStatus : Int
  setRxBoostedGainModeStatus : Int
  implicitHeaderStatus : Int
  deriving DecidableEq, Repr

/-- Oracle for one blocking receive: the status `radio.receive(str)` returns,
the payload it writes into `str`, and the values the RSSI/SNR accessors
would report for that packet (floats in the source, modelled as integers;
none of the claims depend on float arithmetic). -/
structure RxEvent where
  status : Int
  payload : String
  rssi : Int
  snr : Int
  deriving DecidableEq, Repr

/-- Result of running (part of) the firmware: the serial output trace, the
trace of calls into the radio library, and whether the firmware reached a
permanent halted state (`while (true);` in the source). -/
structure RunResult where
  out : List Ev
  calls : List RadioCall
  halted : Bool
  deriving DecidableEq, Repr

/-- Shallow embedding of `setup()` from `main.cpp`. Mirrors the source:
install the RF switch table, print the init banner, call `radio.begin`
with the literal arguments of the source, branch on its status (halting
on failure); then `state = radio.setTCXO(3.0)` followed by three tuning
calls whose return values the source does not assign anywhere, and a
second branch on `state` (halting on failure). -/
def setup (env : Env) : RunResult :=
  let out0 : List Ev := [.pr "[STM32WL] Initializing ... "]
  let calls0 : List RadioCall :=
    [.setRfSwitchTable, .beginRadio 915 10.4 12 6 18 10 8 1.6 false]
  let state := env.beginStatus
  if state = RADIOLIB_ERR_NONE then
    let out1 := out0 ++ [.ln "success!"]
    let state := env.setTCXOStatus
    let calls1 := calls0 ++
      [.setTCXO 3.0, .forceLDRO true, .setRxBoostedGainMode true,
       .implicitHeader 8]
    if state = RADIOLIB_ERR_NONE then
      ⟨out1 ++ [.ln "success!"], calls1, false⟩
    else
      ⟨out1 ++ [.pr "failed, code ", .ln (toString state)], calls1, true⟩
  else
    ⟨out0 ++ [.pr "failed, code ", .ln (toString state)], calls0, true⟩

/-- Serial output of one iteration of `loop()` from `main.cpp`, given the
receive oracle for that iteration. -/
def loopIterOut (rx : RxEvent) : List Ev :=
  Ev.pr "[STM32WL] Waiting for incoming transmission ... " ::
  (if rx.status = RADIOLIB_ERR_NONE then
    [.ln "success!",
     .pr "[STM32WL] Data:\t\t", .ln rx.payload,
     .pr "[STM32WL] RSSI:\t\t", .pr (toString rx.rssi), .ln " dBm",
     .pr "[STM32WL] SNR:\t\t", .pr (toString rx.snr), .ln " dB"]
  else if rx.status = RADIOLIB_ERR_RX_TIMEOUT then
    [.ln "timeout!"]
  else if rx.status = RADIOLIB_ERR_CRC_MISMATCH then
    [.ln "CRC error!"]
  else
    [.pr "failed, code ", .ln (toString rx.status)])

/-- Radio-library calls made by one iteration of `loop()`: the blocking
receive, and on success the two quality-metric read accessors. -/
def loopIterCalls (rx : RxEvent) : List RadioCall :=
  RadioCall.receive ::
  (if rx.status = RADIOLIB_ERR_NONE then [.getRSSI, .getSNR] else [])

/-- Serial output of the receive loop over a finite prefix of receive
oracles (the source loop runs forever; claims quantify over finite
prefixes of its iterations). -/
def loopRun : List RxEvent → List Ev
  | [] => []
  | rx :: rest => loopIterOut rx ++ loopRun rest

/-- Radio-library call trace of the receive loop over a finite prefix of
receive oracles. -/
def loopRunCalls : List RxEvent → List RadioCall
  | [] => []
  | rx :: rest => loopIterCalls rx ++ loopRunCalls rest

/-- Whole-firmware run: `setup`, then — only if `setup` did not halt —
the receive loop over the given receive oracles. -/
def program (env : Env) (rxs : List RxEvent) : RunResult :=
  let s := setup env
  if s.halted then ⟨s.out, s.calls, true⟩
  else ⟨s.out ++ loopRun rxs, s.calls ++ loopRunCalls rxs, false⟩

/-- Completed serial lines of an event trace: `pr` extends the current
line, `ln` completes it; a trailing nonempty partial line is kept. -/
def linesAux : List Ev → String → List String
  | [], cur => if cur = "" then [] else [cur]
  | .pr s :: rest, cur => linesAux rest (cur ++ s)
  | .ln s :: rest, cur => (cur ++ s) :: linesAux rest ""

/-- Completed serial lines of an event trace. -/
def lines (evs : List Ev) : List String := linesAux evs ""

/-- Modelled radio configuration: the parameters the setup-time library
calls establish (base `begin` parameters, RF switch table installation,
and the secondary tuning settings). -/
structure RadioConfig where
  rfSwitchInstalled : Bool
  freq : ℚ
  bw : ℚ
  sf : ℕ
  cr : ℕ
  syncWord : ℕ
  power : ℤ
  preambleLength : ℕ
  tcxoVoltage : ℚ
  useRegulatorLDO : Bool
  ldroForced : Bool
  rxBoostedGain : Bool
  implicitHeaderLen : ℕ
  deriving DecidableEq, Repr

/-- Modelled from the spec: the effect of each radio-library entry point on
the radio configuration. The library itself is external to the repository;
per the spec's external-interface section, the configuration and
secondary-tuning entry points set the named parameters, while the blocking
receive only returns a status and populates a data buffer, and the RSSI/SNR
accessors only read the last-received quality values — none of the latter
three modify the configuration. -/
def configEffect (c : RadioCall) (cfg : RadioConfig) : RadioConfig :=
  match c with
  | .setRfSwitchTable => { cfg with rfSwitchInstalled := true }
  | .beginRadio f b sf cr sw p pl tv ldo =>
      { cfg with freq := f, bw := b, sf := sf, cr := cr, syncWord := sw,
                 power := p, preambleLength := pl, tcxoVoltage := tv,
                 useRegulatorLDO := ldo }
  | .setTCXO v => { cfg with tcxoVoltage := v }
  | .forceLDRO b => { cfg with ldroForced := b }
  | .setRxBoostedGainMode b => { cfg with rxBoostedGain := b }
  | .implicitHeader n => { cfg with implicitHeaderLen := n }
  | .receive => cfg
  | .getRSSI => cfg
  | .getSNR => cfg

/-- Fold of `configEffect` over a call trace. -/
def applyCalls (cs : List RadioCall) (cfg : RadioConfig) : RadioConfig :=
  cs.foldl (fun c k => configEffect k c) cfg

/-- Every receive oracle consumed by the loop gives rise to exactly one
blocking-receive call. -/
theorem loopRunCalls_receive_count (rxs : List RxEvent) :
    List.count RadioCall.receive (loopRunCalls rxs) = rxs.length := by
  induction rxs with
  | nil => rfl
  | cons rx rest ih =>
      by_cases h : rx.status = RADIOLIB_ERR_NONE <;>
        simp [loopRunCalls, loopIterCalls, h, List.count_cons, ih]

/-- C1: if `radio.begin` returns any non-success status, the firmware prints
the failure line with that numeric code, enters the permanent halted state,
and the receive loop never executes (no receive call is ever made). -/
theorem init_failure_halts_no_receive (env : Env) (rxs : List RxEvent)
    (h : env.beginStatus ≠ RADIOLIB_ERR_NONE) :
    (program env rxs).out =
      [.pr "[STM32WL] Initializing ... ", .pr "failed, code ",
       .ln (toString env.beginStatus)] ∧
    (program env rxs).halted = true ∧
    RadioCall.receive ∉ (program env rxs).calls := by
  simp [program, setup, h]

/-- Witness for C1 at the concrete failing status -2. -/
theorem init_failure_halts_no_receive_witness :
    ((⟨-2, 0, 0, 0, 0⟩ : Env).beginStatus ≠ RADIOLIB_ERR_NONE) ∧
    ((program ⟨-2, 0, 0, 0, 0⟩ []).out =
      [.pr "[STM32WL] Initializing ... ", .pr "failed, code ",
       .ln (toString (-2 : Int))] ∧
     (program ⟨-2, 0, 0, 0, 0⟩ []).halted = true ∧
     RadioCall.receive ∉ (program ⟨-2, 0, 0, 0, 0⟩ []).calls) :=
  ⟨by decide, init_failure_halts_no_receive ⟨-2, 0, 0, 0, 0⟩ [] (by decide)⟩

/-- C5: setup calls the library in the fixed order RF-switch-table first,
then `begin` with the base parameters, and — only after a successful
`begin` — the four secondary-tuning calls, each exactly once and in source
order; after a failed `begin` no tuning call is ever made. -/
theorem setup_fixed_call_order (env : Env) :
    (env.beginStatus = RADIOLIB_ERR_NONE →
      (setup env).calls =
        [.setRfSwitchTable, .beginRadio 915 10.4 12 6 18 10 8 1.6 false,
         .setTCXO 3.0, .forceLDRO true, .setRxBoostedGainMode true,
         .implicitHeader 8]) ∧
    (env.beginStatus ≠ RADIOLIB_ERR_NONE →
      (setup env).calls =
        [.setRfSwitchTable, .beginRadio 915 10.4 12 6 18 10 8 1.6 false]) := by
  by_cases h2 : env.setTCXOStatus = RADIOLIB_ERR_NONE <;>
    constructor <;> intro h <;> simp [setup, h, h2]

/-- Witness for C5 at the all-success environment. -/
theorem setup_fixed_call_order_witness :
    (setup ⟨0, 0, 0, 0, 0⟩).calls =
      [.setRfSwitchTable, .beginRadio 915 10.4 12 6 18 10 8 1.6 false,
       .setTCXO 3.0, .forceLDRO true, .setRxBoostedGainMode true,
       .implicitHeader 8] :=
  (setup_fixed_call_order ⟨0, 0, 0, 0, 0⟩).1 (by decide)

/-- C2 counterexample: with a successful `begin` and a failing `setTCXO`
(status -1), the firmware reports the failure but then halts permanently:
it never proceeds to the receive loop, even with a receive oracle
available, contrary to the claim that secondary-tuning failure is
non-fatal. -/
theorem tuning_failure_nonfatal_cex :
    (program ⟨0, -1, 0, 0, 0⟩ [⟨-6, "", 0, 0⟩]).halted = true ∧
    RadioCall.receive ∉ (program ⟨0, -1, 0, 0, 0⟩ [⟨-6, "", 0, 0⟩]).calls ∧
    (program ⟨0, -1, 0, 0, 0⟩ [⟨-6, "", 0, 0⟩]).out =
      [.pr "[STM32WL] Initializing ... ", .ln "success!",
       .pr "failed, code ", .ln "-1"] := by
  decide

/-- C2 amended: a failure status from the checked secondary-tuning call
(`setTCXO`, the only tuning call whose status the firmware inspects) is
reported on the diagnostic output and IS fatal: the firmware halts and the
receive loop never executes. -/
theorem tcxo_failure_reported_and_fatal (env : Env) (rxs : List RxEvent)
    (hb : env.beginStatus = RADIOLIB_ERR_NONE)
    (ht : env.setTCXOStatus ≠ RADIOLIB_ERR_NONE) :
    (program env rxs).out =
      [.pr "[STM32WL] Initializing ... ", .ln "success!",
       .pr "failed, code ", .ln (toString env.setTCXOStatus)] ∧
    (program env rxs).halted = true ∧
    RadioCall.receive ∉ (program env rxs).calls := by
  simp [program, setup, hb, ht]

/-- Witness for C2's amended claim at the concrete failing status -5. -/
theorem tcxo_failure_reported_and_fatal_witness :
    ((⟨0, -5, 0, 0, 0⟩ : Env).beginStatus = RADIOLIB_ERR_NONE ∧
     (⟨0, -5, 0, 0, 0⟩ : Env).setTCXOStatus ≠ RADIOLIB_ERR_NONE) ∧
    ((program ⟨0, -5, 0, 0, 0⟩ []).out =
      [.pr "[STM32WL] Initializing ... ", .ln "success!",
       .pr "failed, code ", .ln (toString (-5 : Int))] ∧
     (program ⟨0, -5, 0, 0, 0⟩ []).halted = true ∧
     RadioCall.receive ∉ (program ⟨0, -5, 0, 0, 0⟩ []).calls) :=
  ⟨⟨by decide, by decide⟩,
   tcxo_failure_reported_and_fatal ⟨0, -5, 0, 0, 0⟩ [] (by decide) (by decide)⟩

/-- C3 counterexample: with a failing LAST tuning call (`implicitHeader`
returning -1) the firmware still reports success and proceeds (so the last
call's status is NOT the one checked), while with a failing FIRST tuning
call (`setTCXO` returning -1) the firmware halts (so an earlier call's
failure DOES affect control flow) — both contrary to the claim. -/
theorem last_tuning_status_checked_cex :
    ((program ⟨0, 0, 0, 0, -1⟩ []).out =
      [.pr "[STM32WL] Initializing ... ", .ln "success!", .ln "success!"] ∧
     (program ⟨0, 0, 0, 0, -1⟩ []).halted = false) ∧
    (program ⟨0, -1, 0, 0, 0⟩ []).halted = true := by
  decide

/-- C3 amended: the status variable is assigned only by the FIRST
secondary-tuning call (`setTCXO`); the return statuses of the later three
tuning calls (`forceLDRO`, `setRxBoostedGainMode`, `implicitHeader`) are
discarded and have no effect whatsoever on the firmware's output or
control flow, while a failing `setTCXO` status halts the firmware. -/
theorem only_tcxo_status_checked :
    (∀ (env : Env) (rxs : List RxEvent) (a b c : Int),
        program { env with
                  forceLDROStatus := a, setRxBoostedGainModeStatus := b,
                  implicitHeaderStatus := c } rxs = program env rxs) ∧
    (∀ (env : Env) (rxs : List RxEvent),
        env.beginStatus = RADIOLIB_ERR_NONE →
        env.setTCXOStatus ≠ RADIOLIB_ERR_NONE →
        (program env rxs).halted = true) := by
  constructor
  · intro env rxs a b c
    rfl
  · intro env rxs hb ht
    simp [program, setup, hb, ht]

/-- Witness for C3's amended claim at concrete environments. -/
theorem only_tcxo_status_checked_witness :
    program ⟨0, 0, -9, -9, -9⟩ [] = program ⟨0, 0, 0, 0, 0⟩ [] ∧
    (program ⟨0, -3, 0, 0, 0⟩ []).halted = true :=
  ⟨only_tcxo_status_checked.1 ⟨0, 0, 0, 0, 0⟩ [] (-9) (-9) (-9),
   only_tcxo_status_checked.2 ⟨0, -3, 0, 0, 0⟩ [] (by decide) (by decide)⟩

/-- C4 counterexample: when `forceLDRO`, `setRxBoostedGainMode` and
`implicitHeader` all return failure status -1 (with `begin` and `setTCXO`
succeeding), the diagnostic output is the pure success banner: no failure
line of any kind is produced, so those failure statuses go unreported. -/
theorem no_silent_failure_cex :
    (program ⟨0, 0, -1, -1, -1⟩ []).out =
      [.pr "[STM32WL] Initializing ... ", .ln "success!", .ln "success!"] ∧
    Ev.pr "failed, code " ∉ (program ⟨0, 0, -1, -1, -1⟩ []).out ∧
    (program ⟨0, 0, -1, -1, -1⟩ []).halted = false := by
  decide

/-- C4 amended: the outcomes of `begin`, of `setTCXO`, and of every receive
attempt each produce a diagnostic line (failure codes of the first two are
printed, and every loop iteration prints at least one line); but the
statuses returned by `forceLDRO`, `setRxBoostedGainMode` and
`implicitHeader` are discarded and can never affect the output: failures
from those three calls go unreported. -/
theorem outcome_reporting (env : Env) (rxs : List RxEvent) :
    (env.beginStatus ≠ RADIOLIB_ERR_NONE →
      Ev.ln (toString env.beginStatus) ∈ (program env rxs).out) ∧
    (env.beginStatus = RADIOLIB_ERR_NONE →
      env.setTCXOStatus ≠ RADIOLIB_ERR_NONE →
      Ev.ln (toString env.setTCXOStatus) ∈ (program env rxs).out) ∧
    (env.beginStatus = RADIOLIB_ERR_NONE →
      env.setTCXOStatus = RADIOLIB_ERR_NONE →
      (setup env).out =
        [.pr "[STM32WL] Initializing ... ", .ln "success!", .ln "success!"]) ∧
    (∀ rx : RxEvent, lines (loopIterOut rx) ≠ []) ∧
    (∀ a b c : Int,
      program { env with
                forceLDROStatus := a, setRxBoostedGainModeStatus := b,
                implicitHeaderStatus := c } rxs = program env rxs) := by
  refine ⟨fun hb => ?_, fun hb ht => ?_, fun hb ht => ?_, fun rx => ?_,
    fun a b c => rfl⟩
  · simp [program, setup, hb]
  · simp [program, setup, hb, ht]
  · simp [setup, hb, ht]
  · rcases h0 : decide (rx.status = RADIOLIB_ERR_NONE) with _ | _ <;>
    rcases h6 : decide (rx.status = RADIOLIB_ERR_RX_TIMEOUT) with _ | _ <;>
    rcases h7 : decide (rx.status = RADIOLIB_ERR_CRC_MISMATCH) with _ | _ <;>
      simp_all [loopIterOut, lines, linesAux]

/-- Witness for C4's amended claim at concrete inputs. -/
theorem outcome_reporting_witness :
    Ev.ln (toString (-2 : Int)) ∈ (program ⟨-2, 0, 0, 0, 0⟩ []).out ∧
    lines (loopIterOut ⟨-6, "", 0, 0⟩) ≠ [] :=
  ⟨(outcome_reporting ⟨-2, 0, 0, 0, 0⟩ []).1 (by decide),
   (outcome_reporting ⟨-2, 0, 0, 0, 0⟩ []).2.2.2.1 ⟨-6, "", 0, 0⟩⟩

/-- C6: with the hardcoded configuration (frequency 915, bandwidth 10.4,
spreading factor 12, coding rate 6, sync word 18, power 10 dBm) and a
receive that succeeds with payload "HELLO", the output contains
"success!", the data line carrying "HELLO", the RSSI value and the SNR
value, in that order (stated both as the full trace and as an in-order
subsequence). -/
theorem hello_success_output (r s : Int) :
    (program ⟨0, 0, 0, 0, 0⟩ [⟨RADIOLIB_ERR_NONE, "HELLO", r, s⟩]).out =
      [.pr "[STM32WL] Initializing ... ", .ln "success!", .ln "success!",
       .pr "[STM32WL] Waiting for incoming transmission ... ",
       .ln "success!",
       .pr "[STM32WL] Data:\t\t", .ln "HELLO",
       .pr "[STM32WL] RSSI:\t\t", .pr (toString r), .ln " dBm",
       .pr "[STM32WL] SNR:\t\t", .pr (toString s), .ln " dB"] ∧
    List.Sublist
      [Ev.ln "success!", Ev.pr "[STM32WL] Data:\t\t", Ev.ln "HELLO",
       Ev.pr (toString r), Ev.pr (toString s)]
      (program ⟨0, 0, 0, 0, 0⟩ [⟨RADIOLIB_ERR_NONE, "HELLO", r, s⟩]).out ∧
    RadioCall.beginRadio 915 10.4 12 6 18 10 8 1.6 false ∈
      (program ⟨0, 0, 0, 0, 0⟩ [⟨RADIOLIB_ERR_NONE, "HELLO", r, s⟩]).calls := by
  refine ⟨rfl, ?_, ?_⟩
  · exact .cons _ (.cons₂ _ (.cons _ (.cons _ (.cons _ (.cons₂ _ (.cons₂ _
      (.cons _ (.cons₂ _ (.cons _ (.cons _ (.cons₂ _ (.cons _ .slnil))))))))))))
  · simp [program, setup, RADIOLIB_ERR_NONE]

/-- C7: a receive that returns the Timeout status produces exactly one
serial line — the timeout line — with no data and no metrics, and the loop
continues: the next iteration's output follows immediately and every
remaining receive oracle still gets exactly one receive attempt. -/
theorem timeout_one_line_continue (p : String) (r s : Int)
    (rest : List RxEvent) :
    lines (loopIterOut ⟨RADIOLIB_ERR_RX_TIMEOUT, p, r, s⟩) =
      ["[STM32WL] Waiting for incoming transmission ... timeout!"] ∧
    loopRun (⟨RADIOLIB_ERR_RX_TIMEOUT, p, r, s⟩ :: rest) =
      loopIterOut ⟨RADIOLIB_ERR_RX_TIMEOUT, p, r, s⟩ ++ loopRun rest ∧
    List.count RadioCall.receive
      (loopRunCalls (⟨RADIOLIB_ERR_RX_TIMEOUT, p, r, s⟩ :: rest)) =
      rest.length + 1 := by
  refine ⟨rfl, rfl, ?_⟩
  simpa using
    loopRunCalls_receive_count (⟨RADIOLIB_ERR_RX_TIMEOUT, p, r, s⟩ :: rest)

/-- C8: on a CRC-Mismatch receive status the iteration's diagnostic output
is one fixed event trace, independent of the received payload (and of the
quality metrics): no payload-dependent text can reach the output. -/
theorem crc_mismatch_fixed_output (p : String) (r s : Int) :
    loopIterOut ⟨RADIOLIB_ERR_CRC_MISMATCH, p, r, s⟩ =
      [.pr "[STM32WL] Waiting for incoming transmission ... ",
       .ln "CRC error!"] ∧
    (∀ (q : String) (r2 s2 : Int),
      loopIterOut ⟨RADIOLIB_ERR_CRC_MISMATCH, p, r, s⟩ =
        loopIterOut ⟨RADIOLIB_ERR_CRC_MISMATCH, q, r2, s2⟩) :=
  ⟨rfl, fun _ _ _ => rfl⟩

/-- C9: any receive status other than success, timeout and CRC mismatch is
reported with its raw numeric code, and the loop continues: every
remaining receive oracle still gets exactly one receive attempt, with no
halt. -/
theorem other_error_raw_code_continue (st : Int) (p : String) (r s : Int)
    (rest : List RxEvent)
    (h0 : st ≠ RADIOLIB_ERR_NONE) (h6 : st ≠ RADIOLIB_ERR_RX_TIMEOUT)
    (h7 : st ≠ RADIOLIB_ERR_CRC_MISMATCH) :
    loopIterOut ⟨st, p, r, s⟩ =
      [.pr "[STM32WL] Waiting for incoming transmission ... ",
       .pr "failed, code ", .ln (toString st)] ∧
    List.count RadioCall.receive (loopRunCalls (⟨st, p, r, s⟩ :: rest)) =
      rest.length + 1 := by
  constructor
  · simp [loopIterOut, h0, h6, h7]
  · simpa using loopRunCalls_receive_count (⟨st, p, r, s⟩ :: rest)

/-- Witness for C9 at the concrete status -4. -/
theorem other_error_raw_code_continue_witness :
    ((-4 : Int) ≠ RADIOLIB_ERR_NONE ∧ (-4 : Int) ≠ RADIOLIB_ERR_RX_TIMEOUT ∧
     (-4 : Int) ≠ RADIOLIB_ERR_CRC_MISMATCH) ∧
    (loopIterOut ⟨-4, "", 0, 0⟩ =
      [.pr "[STM32WL] Waiting for incoming transmission ... ",
       .pr "failed, code ", .ln (toString (-4 : Int))] ∧
     List.count RadioCall.receive (loopRunCalls [⟨-4, "", 0, 0⟩]) = 0 + 1) :=
  ⟨⟨by decide, by decide, by decide⟩,
   other_error_raw_code_continue (-4) "" 0 0 [] (by decide) (by decide)
     (by decide)⟩

/-- Every call the loop makes is a receive or a quality-metric read. -/
theorem loopIterCalls_subset (rx : RxEvent) :
    ∀ c ∈ loopIterCalls rx,
      c = RadioCall.receive ∨ c = RadioCall.getRSSI ∨ c = RadioCall.getSNR := by
  intro c hc
  by_cases h : rx.status = RADIOLIB_ERR_NONE <;>
    simp [loopIterCalls, h] at hc <;> tauto

/-- One loop iteration leaves the modelled radio configuration unchanged. -/
theorem applyCalls_loopIterCalls (rx : RxEvent) (cfg : RadioConfig) :
    applyCalls (loopIterCalls rx) cfg = cfg := by
  by_cases h : rx.status = RADIOLIB_ERR_NONE <;>
    simp [loopIterCalls, applyCalls, h, configEffect]

/-- Folding a configuration through an appended call trace composes. -/
theorem applyCalls_append (l1 l2 : List RadioCall) (cfg : RadioConfig) :
    applyCalls (l1 ++ l2) cfg = applyCalls l2 (applyCalls l1 cfg) := by
  simp [applyCalls, List.foldl_append]

/-- C10: the receive loop makes only blocking-receive and RSSI/SNR-read
calls, and under the modelled library semantics every loop iteration
leaves the radio configuration — whatever setup established — unchanged. -/
theorem loop_preserves_config (rxs : List RxEvent) (cfg : RadioConfig) :
    applyCalls (loopRunCalls rxs) cfg = cfg ∧
    ∀ c ∈ loopRunCalls rxs,
      c = RadioCall.receive ∨ c = RadioCall.getRSSI ∨ c = RadioCall.getSNR := by
  constructor
  · induction rxs generalizing cfg with
    | nil => rfl
    | cons rx rest ih =>
        rw [loopRunCalls, applyCalls_append, applyCalls_loopIterCalls]
        exact ih cfg
  · intro c
    induction rxs with
    | nil =>
        intro hc
        simp [loopRunCalls] at hc
    | cons rx rest ih =>
        intro hc
        rw [loopRunCalls, List.mem_append] at hc
        rcases hc with h1 | h1
        · exact loopIterCalls_subset rx c h1
        · exact ih h1

/-- Concrete example configuration for the C10 witness. -/
def cfgExample : RadioConfig :=
  ⟨false, 0, 0, 0, 0, 0, 0, 0, 0, false, false, false, 0⟩

/-- Witness for C10 at a concrete successful receive and configuration. -/
theorem loop_preserves_config_witness :
    applyCalls (loopRunCalls [⟨0, "HELLO", -50, 5⟩]) cfgExample = cfgExample ∧
    (RadioCall.receive = RadioCall.receive ∨
     RadioCall.receive = RadioCall.getRSSI ∨
     RadioCall.receive = RadioCall.getSNR) :=
  ⟨(loop_preserves_config [⟨0, "HELLO", -50, 5⟩] cfgExample).1,
   (loop_preserves_config [⟨0, "HELLO", -50, 5⟩] cfgExample).2
     RadioCall.receive (by decide)⟩

end Rigel
